import Mathlib

/-!
Verification of the Unfolded Circle Remote integration
(`custom_components/unfoldedcircle`: `__init__.py`, `number.py`, `update.py`).

Python strings are embedded as `List Char`; the Python substring test
`needle in hay` becomes `needle <:+: hay` (list infix), and `str.lower()`
becomes mapping `Char.toLower`.  Fallible Python calls are modelled by
`Option PyExc` outcomes supplied through an environment record, and a
function that can raise returns `Except PyExc`.
-/

/-- Python `s.lower()` on the character list embedding of a string. -/
def lowerStr (s : List Char) : List Char := s.map Char.toLower

/-- The literal marker "ucr" checked (case-insensitively) by the migration. -/
def ucrMarker : List Char := ("ucr").toList

/-- The literal marker "ucd" checked (case-insensitively) by the migration. -/
def ucdMarker : List Char := ("ucd").toList

/-- The entity domains (platforms) the integration registers; the migration in
`__init__.py` distinguishes `update` and `switch` from the rest. -/
inductive EntityDomain
  | update
  | switch
  | sensor
  | binary_sensor
  | button
  | remote
  | number
  | select
  | media_player
deriving DecidableEq

/-- A registry entry as seen by `async_migrate_entity_entry`: its domain and
its unique id. -/
structure RegistryEntry where
  domain : EntityDomain
  unique_id : List Char
deriving DecidableEq

/-- `f"{model}_{uid}"`. -/
def newUniqueId (model uid : List Char) : List Char := model ++ '_' :: uid

/-- Embedding of `async_migrate_entity_entry` (`__init__.py` lines 74-109).
Returns the new unique id when a migration is needed, `none` otherwise.
The source returns `entry.unique_id.replace(entry.unique_id, new)`, which for
a string replacing its whole self is just `new`. -/
def asyncMigrateEntityEntry (model serial : List Char) (e : RegistryEntry) :
    Option (List Char) :=
  if e.domain ≠ EntityDomain.update ∧ e.domain ≠ EntityDomain.switch ∧
      ¬ (ucrMarker <:+: lowerStr e.unique_id) ∧
      ¬ (ucdMarker <:+: lowerStr e.unique_id) then
    some (newUniqueId model e.unique_id)
  else if e.domain = EntityDomain.switch ∧
      ¬ (ucrMarker <:+: lowerStr e.unique_id) ∧
      ¬ (ucdMarker <:+: lowerStr e.unique_id) ∧
      ¬ (("uc.main").toList <:+: e.unique_id) then
    some (newUniqueId model e.unique_id)
  else if e.domain = EntityDomain.update ∧
      ¬ (ucrMarker <:+: lowerStr e.unique_id) ∧
      ¬ (ucdMarker <:+: lowerStr e.unique_id) then
    some (model ++ '_' :: serial ++ ("_update_status").toList)
  else
    none

/-- The effect of `er.async_migrate_entries` on one registry entry: apply the
migration callback, keeping the entry unchanged when it returns `None`. -/
def applyMigration (model serial : List Char) (e : RegistryEntry) : RegistryEntry :=
  match asyncMigrateEntityEntry model serial e with
  | some n => { domain := e.domain, unique_id := n }
  | none => e

/-- `__init__.py` lines 114-118: a version-1 config entry is migrated and
bumped to version 2; other versions are left alone. -/
def entryVersionAfterSetup (version : Nat) : Nat :=
  if version = 1 then 2 else version

/-- A persisted dock record from `entry.data["docks"]`: a dict with keys
`id`, `name`, `password`. -/
structure DockRecord where
  id : List Char
  name : List Char
  password : List Char
deriving DecidableEq

/-- A live dock reported by the device client (`remote_api.docks`); `password`
is the client-side password attribute the setup loop overwrites from the
matching persisted record. -/
structure Dock where
  id : List Char
  name : List Char
  password : List Char
deriving DecidableEq

/-- The record appended for a newly seen live dock
(`{"id": dock.id, "name": dock.name, "password": ""}`). -/
def mkDockRecord (d : Dock) : DockRecord :=
  { id := d.id, name := d.name, password := [] }

/-- First reconciliation loop (`__init__.py` lines 122-130): every persisted
record whose id matches no live dock is removed. -/
def removeVanishedDocks (persisted : List DockRecord) (live : List Dock) :
    List DockRecord :=
  persisted.filter (fun r => live.any (fun d => decide (r.id = d.id)))

/-- Second reconciliation loop (`__init__.py` lines 132-142): for each live
dock in order, append a fresh record unless the current list already holds its
id. -/
def appendNewDocks (records : List DockRecord) (live : List Dock) :
    List DockRecord :=
  match live with
  | [] => records
  | d :: rest =>
    if records.any (fun r => decide (r.id = d.id)) then
      appendNewDocks records rest
    else
      appendNewDocks (records ++ [mkDockRecord d]) rest

/-- The whole dock-list reconciliation performed by `async_setup_entry`. -/
def reconcileDocks (persisted : List DockRecord) (live : List Dock) :
    List DockRecord :=
  appendNewDocks (removeVanishedDocks persisted live) live

/-- The attributes of the vendor `Remote` client object that the three
source files read (`coordinator.api.…`). -/
structure RemoteApi where
  name : List Char
  model_number : List Char
  serial_number : List Char
  sw_version : List Char
  latest_sw_version : List Char
  release_notes : List Char
  automatic_updates : Bool
  update_in_progress : Bool
  update_percent : Nat
deriving DecidableEq

/-- The attributes of the vendor `Dock` client object read by the dock number
entities. -/
structure DockApi where
  model_number : List Char
  serial_number : List Char
deriving DecidableEq

/-- The eight declared number setter functions of `number.py`: six remote
settings patches and two dock commands. -/
inductive NumberControl
  | update_remote_display_settings
  | update_remote_button_settings
  | update_remote_sound_settings
  | update_remote_display_timeout_settings
  | update_remote_wakeup_sensitivity_settings
  | update_remote_sleep_timeout_settings
  | update_dock_led_brightness
  | update_dock_ethernet_led_brightness
deriving DecidableEq

/-- `UnfoldedCircleNumberEntityDescription`: static metadata of one number
entity. -/
structure NumberDescription where
  key : List Char
  name : List Char
  unique_id : List Char
  icon : List Char
  control_fn : NumberControl
  native_min_value : Int
  native_max_value : Int
deriving DecidableEq

/-- The `UNFOLDED_CIRCLE_NUMBER` tuple of `number.py` (remote entities). -/
def UNFOLDED_CIRCLE_NUMBER : List NumberDescription :=
  [ { key := ("display_brightness").toList
      name := ("Display Brightness").toList
      unique_id := ("display_brightness").toList
      icon := ("mdi:brightness-5").toList
      control_fn := NumberControl.update_remote_display_settings
      native_min_value := 0, native_max_value := 100 },
    { key := ("button_backlight_brightness").toList
      name := ("Button Backlight Brightness").toList
      unique_id := ("button_backlight_brightness").toList
      icon := ("mdi:keyboard-settings-outline").toList
      control_fn := NumberControl.update_remote_button_settings
      native_min_value := 0, native_max_value := 100 },
    { key := ("sound_effects_volume").toList
      name := ("Sound Effects Volume").toList
      unique_id := ("sound_effects_volume").toList
      icon := ("mdi:volume-medium").toList
      control_fn := NumberControl.update_remote_sound_settings
      native_min_value := 0, native_max_value := 100 },
    { key := ("display_timeout").toList
      name := ("Display Timeout").toList
      unique_id := ("display_timeout").toList
      icon := ("mdi:vibrate").toList
      control_fn := NumberControl.update_remote_display_timeout_settings
      native_min_value := 0, native_max_value := 60 },
    { key := ("wakeup_sensitivity").toList
      name := ("Wake Sensitivity").toList
      unique_id := ("wakeup_sensitivity").toList
      icon := ("mdi:sleep-off").toList
      control_fn := NumberControl.update_remote_wakeup_sensitivity_settings
      native_min_value := 0, native_max_value := 3 },
    { key := ("sleep_timeout").toList
      name := ("Sleep Timeout").toList
      unique_id := ("sleep_timeout").toList
      icon := ("mdi:power-sleep").toList
      control_fn := NumberControl.update_remote_sleep_timeout_settings
      native_min_value := 0, native_max_value := 1800 } ]

/-- The `UNFOLDED_CIRCLE_DOCK_NUMBER` tuple of `number.py` (dock entities). -/
def UNFOLDED_CIRCLE_DOCK_NUMBER : List NumberDescription :=
  [ { key := ("led_brightness").toList
      name := ("LED Brightness").toList
      unique_id := ("display_brightness").toList
      icon := ("mdi:brightness-5").toList
      control_fn := NumberControl.update_dock_led_brightness
      native_min_value := 0, native_max_value := 100 },
    { key := ("ethernet_led_brightness").toList
      name := ("Ethernet LED Brightness").toList
      unique_id := ("button_backlight_brightness").toList
      icon := ("mdi:lan").toList
      control_fn := NumberControl.update_dock_ethernet_led_brightness
      native_min_value := 0, native_max_value := 100 } ]

/-- The entity attributes that the number `__init__` methods assign. -/
structure EntityAttrs where
  unique_id : List Char
  has_entity_name : Bool
  name : List Char
  icon : List Char
  min_value : Int
  max_value : Int
deriving DecidableEq

/-- `UCRemoteNumber.__init__` (`number.py` lines 165-182): the unique id is
built from the remote coordinator's client. -/
def ucRemoteNumberInit (api : RemoteApi) (description : NumberDescription) :
    EntityAttrs :=
  { unique_id :=
      api.model_number ++ '_' :: api.serial_number ++ '_' :: description.unique_id
    has_entity_name := true
    name := description.name
    icon := description.icon
    min_value := description.native_min_value
    max_value := description.native_max_value }

/-- `UCDockNumber.__init__` (`number.py` lines 256-273): the unique id is
built from the dock coordinator's client. -/
def ucDockNumberInit (api : DockApi) (description : NumberDescription) :
    EntityAttrs :=
  { unique_id :=
      api.model_number ++ '_' :: api.serial_number ++ '_' :: description.unique_id
    has_entity_name := true
    name := description.name
    icon := description.icon
    min_value := description.native_min_value
    max_value := description.native_max_value }

/-- The value of the update entity's `_attr_in_progress` attribute: the code
assigns the string "0", a numeric percentage, or the boolean `False`; before
any assignment it holds the host base-class default. -/
inductive ProgressVal
  | str0
  | percent (n : Nat)
  | boolFalse
  | hostDefault
deriving DecidableEq

/-- The update entity attributes assigned by `update.py`. -/
structure UpdateEntityState where
  unique_id : List Char
  name : List Char
  auto_update : Bool
  installed_version : List Char
  latest_version : List Char
  release_notes : List Char
  title : List Char
  in_progress : ProgressVal
deriving DecidableEq

/-- `Update.__init__` (`update.py` lines 37-54). Note the unique id is
`f"{self.coordinator.api.name}_update_status"` — built from the client name,
not from model and serial numbers. `_attr_in_progress` is not assigned here. -/
def updateEntityInit (api : RemoteApi) : UpdateEntityState :=
  { unique_id := api.name ++ ("_update_status").toList
    name := api.name ++ (" Firmware").toList
    auto_update := api.automatic_updates
    installed_version := api.sw_version
    latest_version := api.latest_sw_version
    release_notes := api.release_notes
    title := api.name ++ (" Firmware").toList
    in_progress := ProgressVal.hostDefault }

/-- `Update._handle_coordinator_update` (`update.py` lines 75-88). -/
def updateHandleCoordinatorUpdate (api : RemoteApi) (s : UpdateEntityState) :
    UpdateEntityState :=
  if api.update_in_progress = true then
    if api.update_percent = 0 then
      { s with in_progress := ProgressVal.str0 }
    else
      { s with in_progress := ProgressVal.percent api.update_percent }
  else
    { s with in_progress := ProgressVal.boolFalse
             installed_version := api.sw_version
             latest_version := api.latest_sw_version }

/-- Python `int(value)` on a real value: truncation toward zero. -/
def pyInt (q : Rat) : Int :=
  q.num.sign * ((q.num.natAbs / q.den : Nat) : Int)

/-- The awaited effects a number entity's setter issues, in order. -/
inductive SetValueEffect
  | controlCall (fn : NumberControl) (value : Int)
  | requestRefresh
deriving DecidableEq

/-- Whether an effect is a call to a declared control function. -/
def SetValueEffect.isControlCall : SetValueEffect → Bool
  | SetValueEffect.controlCall _ _ => true
  | SetValueEffect.requestRefresh => false

/-- `UCRemoteNumber.async_set_native_value` (`number.py` lines 190-194) as the
ordered list of awaited effects it performs before returning. -/
def ucRemoteNumberSetNativeValue (description : NumberDescription) (value : Rat) :
    List SetValueEffect :=
  [ SetValueEffect.controlCall description.control_fn (pyInt value),
    SetValueEffect.requestRefresh ]

/-- `UCDockNumber.async_set_native_value` (`number.py` lines 281-285) as the
ordered list of awaited effects it performs before returning. -/
def ucDockNumberSetNativeValue (description : NumberDescription) (value : Rat) :
    List SetValueEffect :=
  [ SetValueEffect.controlCall description.control_fn (pyInt value),
    SetValueEffect.requestRefresh ]

/-- Python exceptions relevant to the setup, unload and removal paths.  The
`otherError` constructor stands for any exception that is neither an
`AuthenticationError` nor a `ConnectionError`. -/
inductive PyExc
  | authenticationError
  | connectionError
  | otherError (code : Nat)
deriving DecidableEq

/-- How `async_setup_entry` can fail: the two host exceptions it raises
deliberately, or a Python exception it lets escape unwrapped. -/
inductive SetupFailure
  | configEntryAuthFailed
  | configEntryNotReady
  | uncaught (e : PyExc)
deriving DecidableEq

/-- Possible failures of the two per-dock operations in the setup loop: the
coordinator construction (`UnfoldedCircleDockCoordinator(hass, dock)`, line
155, outside the try) and the eager refresh (`api.update()` plus
`async_config_entry_first_refresh()`, lines 157-158, inside the try). -/
structure DockBehavior where
  constructRaises : Option PyExc
  eagerRefreshRaises : Option PyExc
deriving DecidableEq

/-- `__init__.py` lines 149-152: the dock password is overwritten with the
password of the first persisted record carrying the dock's id; a dock with no
matching record keeps its client-side password. -/
def dockEffectivePassword (records : List DockRecord) (d : Dock) : List Char :=
  match records.find? (fun r => decide (r.id = d.id)) with
  | some r => r.password
  | none => d.password

/-- The advisory issue id `f"dock_password_{dock.id}"`. -/
def dockIssueId (id : List Char) : List Char :=
  ("dock_password_").toList ++ id

/-- The per-dock setup loop (`__init__.py` lines 148-190), accumulating the
ids of the dock coordinators kept and the advisory issues raised.  A dock
whose effective password is non-empty gets a coordinator; its construction is
outside the try block, so a construction exception aborts the loop, while an
eager-refresh exception is caught and the dock skipped.  A dock with an empty
password only gets a `dock_password_…` advisory issue. -/
def dockLoopAux (behavior : List Char → DockBehavior) (records : List DockRecord) :
    List Dock → List (List Char) → List (List Char) →
    Except PyExc (List (List Char) × List (List Char))
  | [], coords, issues => Except.ok (coords, issues)
  | d :: rest, coords, issues =>
    if dockEffectivePassword records d ≠ [] then
      match (behavior d.id).constructRaises with
      | some e => Except.error e
      | none =>
        match (behavior d.id).eagerRefreshRaises with
        | some _ => dockLoopAux behavior records rest coords issues
        | none => dockLoopAux behavior records rest (coords ++ [d.id]) issues
    else
      dockLoopAux behavior records rest coords (issues ++ [dockIssueId d.id])

/-- The `RuntimeData` dataclass: the main coordinator (identified by an
object reference) and the dock coordinators (identified by dock ids). -/
structure RuntimeData where
  coordinator : Nat
  dockCoordinators : List (List Char)
deriving DecidableEq

/-- The environment of one `async_setup_entry` run: the persisted config
entry state, the device identity, and the outcome of every external call the
function awaits.  `hassData` models the
`hass.data[DOMAIN][entry_id][UNFOLDED_CIRCLE_COORDINATOR]` store as a map
from entry id to coordinator reference. -/
structure SetupEnv where
  api : RemoteApi
  connectOutcome : Option PyExc
  initOutcome : Option PyExc
  version : Nat
  registryEntries : List RegistryEntry
  persistedDocks : List DockRecord
  liveDocks : List Dock
  dockBehavior : List Char → DockBehavior
  firstRefreshFails : Bool
  externalConfigAvailable : Bool
  websocketUrlRegistered : Bool
  forwardOutcome : Option PyExc
  initWebsocketOutcome : Option PyExc
  hassData : List (List Char × Nat)
  entryId : List Char
  coordinatorRef : Nat

/-- The state `async_setup_entry` leaves behind on success. -/
structure SetupResult where
  version : Nat
  registryEntries : List RegistryEntry
  dockRecords : List DockRecord
  runtimeData : RuntimeData
  issues : List (List Char)
  hassData : List (List Char × Nat)
deriving DecidableEq

/-- Embedding of `async_setup_entry` (`__init__.py` lines 51-219).
Only the initial connection block (lines 56-66) is wrapped in try/except:
an `AuthenticationError` becomes `ConfigEntryAuthFailed` and every other
exception becomes `ConfigEntryNotReady`.  `coordinator.api.init()` (line 72),
the dock-coordinator constructions (line 155), platform forwarding (line 215)
and `init_websocket` (line 218) are unprotected, so their exceptions escape
unwrapped.  The framework call `async_config_entry_first_refresh` (line 196)
raises `ConfigEntryNotReady` itself when the refresh fails.  Note the
function never writes `hass.data`: the coordinator is stored only on
`entry.runtime_data`. -/
def asyncSetupEntry (env : SetupEnv) : Except SetupFailure SetupResult :=
  match env.connectOutcome with
  | some PyExc.authenticationError => Except.error SetupFailure.configEntryAuthFailed
  | some PyExc.connectionError => Except.error SetupFailure.configEntryNotReady
  | some (PyExc.otherError _) => Except.error SetupFailure.configEntryNotReady
  | none =>
    match env.initOutcome with
    | some e => Except.error (SetupFailure.uncaught e)
    | none =>
      let migrated :=
        if env.version = 1 then
          env.registryEntries.map
            (applyMigration env.api.model_number env.api.serial_number)
        else env.registryEntries
      let records := reconcileDocks env.persistedDocks env.liveDocks
      match dockLoopAux env.dockBehavior records env.liveDocks [] [] with
      | Except.error e => Except.error (SetupFailure.uncaught e)
      | Except.ok (coords, dockIssues) =>
        if env.firstRefreshFails then Except.error SetupFailure.configEntryNotReady
        else
          let issues :=
            if env.externalConfigAvailable && !env.websocketUrlRegistered then
              dockIssues ++ [("websocket_connection").toList]
            else dockIssues
          match env.forwardOutcome with
          | some e => Except.error (SetupFailure.uncaught e)
          | none =>
            match env.initWebsocketOutcome with
            | some e => Except.error (SetupFailure.uncaught e)
            | none =>
              Except.ok
                { version := entryVersionAfterSetup env.version
                  registryEntries := migrated
                  dockRecords := records
                  runtimeData :=
                    { coordinator := env.coordinatorRef
                      dockCoordinators := coords }
                  issues := issues
                  hassData := env.hassData }

/-- The update platform's coordinator lookup (`update.py` line 28):
`hass.data[DOMAIN][config_entry.entry_id][UNFOLDED_CIRCLE_COORDINATOR]`,
`none` when the key chain is absent (a `KeyError` in Python). -/
def updatePlatformLookup (hassData : List (List Char × Nat))
    (entryId : List Char) : Option Nat :=
  (hassData.find? (fun kv => decide (kv.1 = entryId))).map Prod.snd

/-- Outcomes of the external calls made by `async_unload_entry`
(`__init__.py` lines 222-236). -/
structure UnloadEnv where
  closeWebsocketRaises : Option PyExc
  deleteIssueRaises : Option PyExc
  unloadPlatformsRaises : Option PyExc
  unloadPlatformsResult : Bool
deriving DecidableEq

/-- Embedding of `async_unload_entry`: the try/except swallows exceptions
from closing the websocket and from deleting the per-dock advisory issues,
but `async_unload_platforms` (line 234) runs outside the try block. -/
def asyncUnloadEntry (env : UnloadEnv) : Except PyExc Bool :=
  match env.unloadPlatformsRaises with
  | some e => Except.error e
  | none => Except.ok env.unloadPlatformsResult

/-- Outcomes of the external calls made by `async_remove_entry`
(`__init__.py` lines 239-257). -/
structure RemoveEnv where
  constructRaises : Option PyExc
  deleteTokenOutcome : Option PyExc
deriving DecidableEq

/-- The body of `async_remove_entry` without its outer except clause: the
client construction can raise, and the token deletion's `ConnectionError` is
caught by the inner except while other exceptions pass through. -/
def removeBody (env : RemoveEnv) : Except PyExc Unit :=
  match env.constructRaises with
  | some e => Except.error e
  | none =>
    match env.deleteTokenOutcome with
    | some PyExc.connectionError => Except.ok ()
    | some e => Except.error e
    | none => Except.ok ()

/-- Embedding of `async_remove_entry`: the outer `except Exception` logs and
swallows every exception of the body, so removal always returns. -/
def asyncRemoveEntry (env : RemoveEnv) : Except PyExc Unit :=
  match removeBody env with
  | Except.error _ => Except.ok ()
  | Except.ok _ => Except.ok ()

/-- A device identity used by the concrete evaluation theorems. -/
def exampleRemoteApi : RemoteApi :=
  { name := ("Remote Two").toList
    model_number := ("UCR2").toList
    serial_number := ("1939").toList
    sw_version := ("1.9.0").toList
    latest_sw_version := ("2.0.0").toList
    release_notes := ("notes").toList
    automatic_updates := false
    update_in_progress := false
    update_percent := 0 }

/-- A setup environment in which every external call succeeds, used to
evaluate a full successful setup run; `hass.data` starts empty. -/
def exampleCleanEnv : SetupEnv :=
  { api := exampleRemoteApi
    connectOutcome := none
    initOutcome := none
    version := 2
    registryEntries := []
    persistedDocks := []
    liveDocks := []
    dockBehavior := fun _ => { constructRaises := none, eagerRefreshRaises := none }
    firstRefreshFails := false
    externalConfigAvailable := false
    websocketUrlRegistered := false
    forwardOutcome := none
    initWebsocketOutcome := none
    hassData := []
    entryId := ("entry1").toList
    coordinatorRef := 5 }

/-- A setup environment whose only failure is an exception raised by
`coordinator.api.init()` (line 72, outside every try block). -/
def exampleInitFailEnv : SetupEnv :=
  { exampleCleanEnv with initOutcome := some (PyExc.otherError 7) }

/-- A setup environment with one live, password-carrying dock whose
coordinator construction raises. -/
def exampleDockConstructFailEnv : SetupEnv :=
  { exampleCleanEnv with
    liveDocks := [ { id := ("d1").toList
                     name := ("Dock One").toList
                     password := ("pw").toList } ]
    persistedDocks := [ { id := ("d1").toList
                          name := ("Dock One").toList
                          password := ("pw").toList } ]
    dockBehavior := fun _ =>
      { constructRaises := some (PyExc.otherError 3), eagerRefreshRaises := none } }

/-- A setup environment whose only failure is an authentication error during
the initial connection. -/
def exampleAuthFailEnv : SetupEnv :=
  { exampleCleanEnv with connectOutcome := some PyExc.authenticationError }

/-- The spec scenario's persisted dock list: records for dock ids 1 and 2. -/
def scenarioPersistedDocks : List DockRecord :=
  [ { id := ("1").toList, name := ("Dock 1").toList, password := ("secret").toList },
    { id := ("2").toList, name := ("Dock 2").toList, password := ("pw2").toList } ]

/-- The spec scenario's live dock list: docks 2 and 3 (client passwords
initially empty). -/
def scenarioLiveDocks : List Dock :=
  [ { id := ("2").toList, name := ("Dock 2").toList, password := [] },
    { id := ("3").toList, name := ("Dock 3").toList, password := [] } ]

/-- A dock behavior whose coordinator constructions succeed but whose eager
refreshes all raise. -/
def scenarioDockBehavior : List Char → DockBehavior :=
  fun _ => { constructRaises := none, eagerRefreshRaises := some (PyExc.otherError 1) }

lemma any_recordId_eq_mem (rs : List DockRecord) (x : List Char) :
    (rs.any fun r => decide (r.id = x)) = decide (x ∈ rs.map DockRecord.id) := by
  induction rs with
  | nil => rfl
  | cons a t ih =>
    simp only [List.any_cons, ih, List.map_cons, List.mem_cons]
    by_cases h : a.id = x
    · subst h; simp
    · have h' : ¬ x = a.id := fun h2 => h h2.symm
      simp [h, h']

lemma any_dockId_eq_mem (ds : List Dock) (x : List Char) :
    (ds.any fun d => decide (x = d.id)) = decide (x ∈ ds.map Dock.id) := by
  induction ds with
  | nil => rfl
  | cons a t ih =>
    simp only [List.any_cons, ih, List.map_cons, List.mem_cons]
    by_cases h : x = a.id
    · subst h; simp
    · simp [h]

lemma removeVanishedDocks_eq (P : List DockRecord) (L : List Dock) :
    removeVanishedDocks P L = P.filter (fun r => decide (r.id ∈ L.map Dock.id)) := by
  unfold removeVanishedDocks
  apply List.filter_congr
  intro r _
  exact any_dockId_eq_mem L r.id

lemma appendNewDocks_eq (L : List Dock) :
    ∀ acc : List DockRecord, (L.map Dock.id).Nodup →
      appendNewDocks acc L =
        acc ++ (L.filter fun d => decide (d.id ∉ acc.map DockRecord.id)).map mkDockRecord := by
  induction L with
  | nil => intro acc _; simp [appendNewDocks]
  | cons d rest ih =>
    intro acc h
    rw [List.map_cons, List.nodup_cons] at h
    obtain ⟨hd, hrest⟩ := h
    simp only [appendNewDocks, any_recordId_eq_mem]
    by_cases hmem : d.id ∈ acc.map DockRecord.id
    · rw [if_pos (decide_eq_true hmem), ih acc hrest,
        List.filter_cons_of_neg (by simpa using hmem)]
    · rw [if_neg (by simpa using hmem), ih (acc ++ [mkDockRecord d]) hrest]
      have hcong :
          rest.filter (fun e => decide (e.id ∉ (acc ++ [mkDockRecord d]).map DockRecord.id))
            = rest.filter (fun e => decide (e.id ∉ acc.map DockRecord.id)) := by
        apply List.filter_congr
        intro e he
        have hne : e.id ≠ d.id := by
          intro hc
          exact hd (hc ▸ List.mem_map_of_mem Dock.id he)
        apply decide_eq_decide.2
        simp [mkDockRecord, hne]
      rw [hcong, List.filter_cons_of_pos (by simpa using hmem)]
      simp [List.append_assoc]

lemma mem_appendNewDocks (L : List Dock) :
    ∀ acc r, r ∈ appendNewDocks acc L → r ∈ acc ∨ ∃ d ∈ L, r = mkDockRecord d := by
  induction L with
  | nil =>
    intro acc r hr
    exact Or.inl (by simpa [appendNewDocks] using hr)
  | cons d rest ih =>
    intro acc r hr
    simp only [appendNewDocks] at hr
    by_cases hb : (acc.any fun s => decide (s.id = d.id)) = true
    · rw [if_pos hb] at hr
      rcases ih acc r hr with h | ⟨e, he, hre⟩
      · exact Or.inl h
      · exact Or.inr ⟨e, List.mem_cons_of_mem d he, hre⟩
    · rw [if_neg hb] at hr
      rcases ih (acc ++ [mkDockRecord d]) r hr with h | ⟨e, he, hre⟩
      · rcases List.mem_append.1 h with h | h
        · exact Or.inl h
        · exact Or.inr ⟨d, List.mem_cons_self d rest, by simpa using h⟩
      · exact Or.inr ⟨e, List.mem_cons_of_mem d he, hre⟩

lemma sub_appendNewDocks (L : List Dock) :
    ∀ acc, acc <+: appendNewDocks acc L := by
  induction L with
  | nil => intro acc; simp [appendNewDocks]
  | cons d rest ih =>
    intro acc
    simp only [appendNewDocks]
    by_cases hb : (acc.any fun s => decide (s.id = d.id)) = true
    · rw [if_pos hb]; exact ih acc
    · rw [if_neg hb]
      exact (List.prefix_append acc [mkDockRecord d]).trans (ih _)

lemma liveIds_mem_appendNewDocks (L : List Dock) :
    ∀ acc d, d ∈ L → d.id ∈ (appendNewDocks acc L).map DockRecord.id := by
  induction L with
  | nil => intro _ _ h; cases h
  | cons d0 rest ih =>
    intro acc d hd
    simp only [appendNewDocks]
    rcases List.mem_cons.1 hd with rfl | hd'
    · by_cases hb : (acc.any fun s => decide (s.id = d.id)) = true
      · rw [if_pos hb]
        have hmem : d.id ∈ acc.map DockRecord.id := by
          rw [any_recordId_eq_mem] at hb
          exact of_decide_eq_true hb
        obtain ⟨r, hr, hid⟩ := List.mem_map.1 hmem
        exact List.mem_map.2 ⟨r, (sub_appendNewDocks rest acc).subset hr, hid⟩
      · rw [if_neg hb]
        have hmem : mkDockRecord d ∈ acc ++ [mkDockRecord d] := by simp
        exact List.mem_map.2
          ⟨mkDockRecord d, (sub_appendNewDocks rest _).subset hmem, rfl⟩
    · by_cases hb : (acc.any fun s => decide (s.id = d0.id)) = true
      · rw [if_pos hb]; exact ih acc d hd'
      · rw [if_neg hb]; exact ih (acc ++ [mkDockRecord d0]) d hd'

lemma appendNewDocks_of_all_mem (L : List Dock) :
    ∀ acc, (∀ d ∈ L, d.id ∈ acc.map DockRecord.id) → appendNewDocks acc L = acc := by
  induction L with
  | nil => intro acc _; rfl
  | cons d rest ih =>
    intro acc h
    simp only [appendNewDocks]
    have hb : (acc.any fun s => decide (s.id = d.id)) = true := by
      rw [any_recordId_eq_mem]
      exact decide_eq_true (h d (List.mem_cons_self d rest))
    rw [if_pos hb]
    exact ih acc (fun e he => h e (List.mem_cons_of_mem d he))

lemma reconcileDocks_ids_live (P : List DockRecord) (L : List Dock) :
    ∀ r ∈ reconcileDocks P L, r.id ∈ L.map Dock.id := by
  intro r hr
  rcases mem_appendNewDocks L (removeVanishedDocks P L) r hr with h | ⟨d, hd, rfl⟩
  · have hp := (List.mem_filter.1 h).2
    rw [any_dockId_eq_mem] at hp
    exact of_decide_eq_true hp
  · exact List.mem_map_of_mem Dock.id hd

lemma reconcileDocks_idem (P : List DockRecord) (L : List Dock) :
    reconcileDocks (reconcileDocks P L) L = reconcileDocks P L := by
  have h1 : removeVanishedDocks (reconcileDocks P L) L = reconcileDocks P L := by
    unfold removeVanishedDocks
    apply List.filter_eq_self.2
    intro r hr
    rw [any_dockId_eq_mem]
    exact decide_eq_true (reconcileDocks_ids_live P L r hr)
  show appendNewDocks (removeVanishedDocks (reconcileDocks P L) L) L = reconcileDocks P L
  rw [h1]
  exact appendNewDocks_of_all_mem L _
    (fun d hd => liveIds_mem_appendNewDocks L (removeVanishedDocks P L) d hd)

lemma reconcileDocks_characterization (P : List DockRecord) (L : List Dock)
    (hL : (L.map Dock.id).Nodup) :
    reconcileDocks P L =
      P.filter (fun r => decide (r.id ∈ L.map Dock.id)) ++
        (L.filter fun d => decide (d.id ∉ P.map DockRecord.id)).map mkDockRecord := by
  unfold reconcileDocks
  rw [appendNewDocks_eq L _ hL, removeVanishedDocks_eq]
  congr 2
  apply List.filter_congr
  intro d hd
  apply decide_eq_decide.2
  apply not_congr
  constructor
  · intro h
    obtain ⟨r, hr, hid⟩ := List.mem_map.1 h
    exact hid ▸ List.mem_map_of_mem DockRecord.id (List.mem_of_mem_filter hr)
  · intro h
    obtain ⟨r, hr, hid⟩ := List.mem_map.1 h
    refine List.mem_map.2 ⟨r, List.mem_filter.2 ⟨hr, ?_⟩, hid⟩
    exact decide_eq_true (by rw [hid]; exact List.mem_map_of_mem Dock.id hd)

lemma migrate_some_starts_with_model {model serial : List Char} {e : RegistryEntry}
    {n : List Char} (h : asyncMigrateEntityEntry model serial e = some n) :
    model <+: n := by
  unfold asyncMigrateEntityEntry at h
  split_ifs at h with h1 h2 h3
  · injection h with h
    subst h
    exact List.prefix_append model ('_' :: e.unique_id)
  · injection h with h
    subst h
    exact List.prefix_append model ('_' :: e.unique_id)
  · injection h with h
    subst h
    exact (List.prefix_append model ('_' :: serial)).trans
      (List.prefix_append (model ++ '_' :: serial) (("_update_status").toList))

lemma migrate_none_of_marker (model serial : List Char) (e : RegistryEntry)
    (h : (ucrMarker <:+: lowerStr e.unique_id) ∨
         (ucdMarker <:+: lowerStr e.unique_id)) :
    asyncMigrateEntityEntry model serial e = none := by
  have hnc1 : ¬ (e.domain ≠ EntityDomain.update ∧ e.domain ≠ EntityDomain.switch ∧
      ¬ (ucrMarker <:+: lowerStr e.unique_id) ∧
      ¬ (ucdMarker <:+: lowerStr e.unique_id)) := by
    rintro ⟨-, -, h3, h4⟩
    rcases h with h | h
    · exact h3 h
    · exact h4 h
  have hnc2 : ¬ (e.domain = EntityDomain.switch ∧
      ¬ (ucrMarker <:+: lowerStr e.unique_id) ∧
      ¬ (ucdMarker <:+: lowerStr e.unique_id) ∧
      ¬ (("uc.main").toList <:+: e.unique_id)) := by
    rintro ⟨-, h2, h3, -⟩
    rcases h with h | h
    · exact h2 h
    · exact h3 h
  have hnc3 : ¬ (e.domain = EntityDomain.update ∧
      ¬ (ucrMarker <:+: lowerStr e.unique_id) ∧
      ¬ (ucdMarker <:+: lowerStr e.unique_id)) := by
    rintro ⟨-, h2, h3⟩
    rcases h with h | h
    · exact h2 h
    · exact h3 h
  unfold asyncMigrateEntityEntry
  rw [if_neg hnc1, if_neg hnc2, if_neg hnc3]

lemma dockLoopAux_characterization (behavior : List Char → DockBehavior)
    (records : List DockRecord) :
    ∀ (docks : List Dock) (coords issues : List (List Char)),
      (∀ d ∈ docks, dockEffectivePassword records d ≠ [] →
          (behavior d.id).constructRaises = none) →
      dockLoopAux behavior records docks coords issues = Except.ok
        (coords ++ (docks.filter fun d =>
            decide (dockEffectivePassword records d ≠ []) &&
            decide ((behavior d.id).eagerRefreshRaises = none)).map Dock.id,
         issues ++ (docks.filter fun d =>
            decide (dockEffectivePassword records d = [])).map
              (fun d => dockIssueId d.id)) := by
  intro docks
  induction docks with
  | nil => intro coords issues _; simp [dockLoopAux]
  | cons d rest ih =>
    intro coords issues h
    have hrest : ∀ e ∈ rest, dockEffectivePassword records e ≠ [] →
        (behavior e.id).constructRaises = none :=
      fun e he => h e (List.mem_cons_of_mem d he)
    simp only [dockLoopAux]
    by_cases hp : dockEffectivePassword records d ≠ []
    · rw [if_pos hp, h d (List.mem_cons_self d rest) hp]
      cases he : (behavior d.id).eagerRefreshRaises with
      | some e =>
        rw [ih coords issues hrest]
        have h1 : (List.filter (fun d =>
            decide (dockEffectivePassword records d ≠ []) &&
            decide ((behavior d.id).eagerRefreshRaises = none)) (d :: rest))
            = List.filter (fun d =>
            decide (dockEffectivePassword records d ≠ []) &&
            decide ((behavior d.id).eagerRefreshRaises = none)) rest :=
          List.filter_cons_of_neg (by simp [hp, he])
        have h2 : (List.filter (fun d =>
            decide (dockEffectivePassword records d = [])) (d :: rest))
            = List.filter (fun d =>
            decide (dockEffectivePassword records d = [])) rest :=
          List.filter_cons_of_neg (by simpa using hp)
        rw [h1, h2]
      | none =>
        rw [ih (coords ++ [d.id]) issues hrest]
        have h1 : (List.filter (fun d =>
            decide (dockEffectivePassword records d ≠ []) &&
            decide ((behavior d.id).eagerRefreshRaises = none)) (d :: rest))
            = d :: List.filter (fun d =>
            decide (dockEffectivePassword records d ≠ []) &&
            decide ((behavior d.id).eagerRefreshRaises = none)) rest :=
          List.filter_cons_of_pos (by simp [hp, he])
        have h2 : (List.filter (fun d =>
            decide (dockEffectivePassword records d = [])) (d :: rest))
            = List.filter (fun d =>
            decide (dockEffectivePassword records d = [])) rest :=
          List.filter_cons_of_neg (by simpa using hp)
        rw [h1, h2, List.map_cons, List.append_assoc]
        rfl
    · rw [if_neg hp]
      have hp' : dockEffectivePassword records d = [] := not_ne_iff.1 hp
      rw [ih coords (issues ++ [dockIssueId d.id]) hrest]
      have h1 : (List.filter (fun d =>
          decide (dockEffectivePassword records d ≠ []) &&
          decide ((behavior d.id).eagerRefreshRaises = none)) (d :: rest))
          = List.filter (fun d =>
          decide (dockEffectivePassword records d ≠ []) &&
          decide ((behavior d.id).eagerRefreshRaises = none)) rest :=
        List.filter_cons_of_neg (by simp [hp'])
      have h2 : (List.filter (fun d =>
          decide (dockEffectivePassword records d = [])) (d :: rest))
          = d :: List.filter (fun d =>
          decide (dockEffectivePassword records d = [])) rest :=
        List.filter_cons_of_pos (by simpa using hp')
      rw [h1, h2, List.map_cons, List.append_assoc]
      rfl

/-- C1: dock reconciliation is a pure set-symmetric-difference on dock ids:
the stored list becomes exactly the persisted records whose id is still live
(kept unchanged, name and password included) followed by one fresh
empty-password record per live dock whose id was not persisted, and running
the reconciliation a second time with the same live list changes nothing.
Stated for live dock lists without duplicate ids, as one device reports. -/
theorem reconcile_docks_symmetric_difference (P : List DockRecord) (L : List Dock)
    (hL : (L.map Dock.id).Nodup) :
    reconcileDocks P L =
      P.filter (fun r => decide (r.id ∈ L.map Dock.id)) ++
        (L.filter fun d => decide (d.id ∉ P.map DockRecord.id)).map mkDockRecord
    ∧ reconcileDocks (reconcileDocks P L) L = reconcileDocks P L :=
  ⟨reconcileDocks_characterization P L hL, reconcileDocks_idem P L⟩

/-- Witness for C1 at the spec scenario: persisted docks 1 and 2, live docks
2 and 3; the result keeps record 2 and appends an empty-password record 3. -/
theorem reconcile_docks_symmetric_difference_witness :
    ((scenarioLiveDocks.map Dock.id).Nodup)
    ∧ (reconcileDocks scenarioPersistedDocks scenarioLiveDocks =
        scenarioPersistedDocks.filter
            (fun r => decide (r.id ∈ scenarioLiveDocks.map Dock.id)) ++
          (scenarioLiveDocks.filter fun d =>
            decide (d.id ∉ scenarioPersistedDocks.map DockRecord.id)).map mkDockRecord
       ∧ reconcileDocks (reconcileDocks scenarioPersistedDocks scenarioLiveDocks)
            scenarioLiveDocks
          = reconcileDocks scenarioPersistedDocks scenarioLiveDocks) :=
  ⟨by decide, reconcile_docks_symmetric_difference scenarioPersistedDocks
    scenarioLiveDocks (by decide)⟩

/-- C2 counterexample: an update-domain registry entry whose unique id lacks
the "ucr"/"ucd" markers is rewritten to the id
`{model_number}_{serial_number}_update_status`, which differs from the
claimed `{model_number}_{original_id}`. -/
theorem migration_update_domain_counterexample :
    asyncMigrateEntityEntry (("UCR").toList) (("1939").toList)
        { domain := EntityDomain.update, unique_id := ("update_status").toList }
      = some (("UCR_1939_update_status").toList)
    ∧ ¬ (ucrMarker <:+: lowerStr (("update_status").toList))
    ∧ ¬ (ucdMarker <:+: lowerStr (("update_status").toList))
    ∧ ("UCR_1939_update_status").toList
        ≠ newUniqueId (("UCR").toList) (("update_status").toList) := by
  exact ⟨by decide, by decide, by decide, by decide⟩

/-- C2 (amended): for every registry entry whose domain is neither update nor
switch and whose unique id lacks the case-insensitive "ucr"/"ucd" markers,
the version-1 migration rewrites its unique id to
`{model_number}_{original_id}`, and the config entry version goes from 1 to
2 after setup. -/
theorem migration_rewrites_unmarked (model serial : List Char) (e : RegistryEntry)
    (h1 : e.domain ≠ EntityDomain.update) (h2 : e.domain ≠ EntityDomain.switch)
    (h3 : ¬ (ucrMarker <:+: lowerStr e.unique_id))
    (h4 : ¬ (ucdMarker <:+: lowerStr e.unique_id)) :
    asyncMigrateEntityEntry model serial e = some (newUniqueId model e.unique_id)
    ∧ entryVersionAfterSetup 1 = 2 := by
  constructor
  · unfold asyncMigrateEntityEntry
    rw [if_pos ⟨h1, h2, h3, h4⟩]
  · rfl

/-- Witness for C2 at the spec scenario: unique id "brightness" with model
number "UCR" becomes "UCR_brightness", and the entry version becomes 2. -/
theorem migration_rewrites_unmarked_witness :
    asyncMigrateEntityEntry (("UCR").toList) (("1939").toList)
        { domain := EntityDomain.number, unique_id := ("brightness").toList }
      = some (("UCR_brightness").toList)
    ∧ entryVersionAfterSetup 1 = 2 := by
  have h := migration_rewrites_unmarked (("UCR").toList) (("1939").toList)
    { domain := EntityDomain.number, unique_id := ("brightness").toList }
    (by decide) (by decide) (by decide) (by decide)
  exact ⟨h.1.trans (by decide), h.2⟩

/-- C3 counterexample: with model number "X" (which carries no "ucr"/"ucd"
marker), migrating the entry "brightness" yields "X_brightness", and
migrating that again yields "X_X_brightness"; so migrate(migrate(id)) is not
migrate(id) for every model_number. -/
theorem migration_not_idempotent_counterexample :
    applyMigration (("X").toList) (("1").toList)
        (applyMigration (("X").toList) (("1").toList)
          { domain := EntityDomain.number, unique_id := ("brightness").toList })
      ≠ applyMigration (("X").toList) (("1").toList)
          { domain := EntityDomain.number, unique_id := ("brightness").toList } := by
  decide

/-- C3 (amended): the migration is idempotent for every entry and every
model number whose lowercase form contains "ucr" or "ucd" — which holds for
all real Unfolded Circle model numbers (UCR2, UCR3, UCD2, …): the rewritten
id then carries a marker, so the second run's marker check makes it a no-op. -/
theorem migration_idempotent_marked_model (model serial : List Char)
    (hm : (ucrMarker <:+: lowerStr model) ∨ (ucdMarker <:+: lowerStr model))
    (e : RegistryEntry) :
    applyMigration model serial (applyMigration model serial e)
      = applyMigration model serial e := by
  cases h : asyncMigrateEntityEntry model serial e with
  | none =>
    have he : applyMigration model serial e = e := by
      unfold applyMigration; rw [h]
    rw [he]; exact he
  | some n =>
    have hpre : model <+: n := migrate_some_starts_with_model h
    have hlow : lowerStr model <+: lowerStr n := by
      unfold lowerStr; exact hpre.map Char.toLower
    have hmark : (ucrMarker <:+: lowerStr n) ∨ (ucdMarker <:+: lowerStr n) := by
      rcases hm with h1 | h1
      · exact Or.inl (h1.trans hlow.isInfix)
      · exact Or.inr (h1.trans hlow.isInfix)
    have he1 : applyMigration model serial e = { domain := e.domain, unique_id := n } := by
      unfold applyMigration; rw [h]
    have h2 := migrate_none_of_marker model serial
      { domain := e.domain, unique_id := n } hmark
    rw [he1]
    unfold applyMigration
    rw [h2]

/-- Witness for C3 (amended) with the real model number "UCR2". -/
theorem migration_idempotent_marked_model_witness :
    ((ucrMarker <:+: lowerStr (("UCR2").toList))
      ∨ (ucdMarker <:+: lowerStr (("UCR2").toList)))
    ∧ applyMigration (("UCR2").toList) (("1939").toList)
        (applyMigration (("UCR2").toList) (("1939").toList)
          { domain := EntityDomain.number, unique_id := ("brightness").toList })
      = applyMigration (("UCR2").toList) (("1939").toList)
          { domain := EntityDomain.number, unique_id := ("brightness").toList } :=
  ⟨by decide, migration_idempotent_marked_model (("UCR2").toList) (("1939").toList)
    (by decide) { domain := EntityDomain.number, unique_id := ("brightness").toList }⟩

/-- C4 counterexample: the firmware Update entity's unique id is built from
the client name, so for the device named "Remote Two" (model UCR2, serial
1939) it is "Remote Two_update_status", which does not even start with
"UCR2_1939_" and hence is not of the form
`{model_number}_{serial_number}_{description.unique_id}`. -/
theorem update_entity_unique_id_counterexample :
    (updateEntityInit exampleRemoteApi).unique_id
        = ("Remote Two_update_status").toList
    ∧ ¬ ((("UCR2_1939_").toList) <+: (updateEntityInit exampleRemoteApi).unique_id) :=
  ⟨rfl, by decide⟩

/-- C4 (amended): every number entity (remote and dock) has unique id exactly
`{model_number}_{serial_number}_{description.unique_id}` taken from its own
coordinator's client, while the firmware Update entity instead uses
`{name}_update_status`. -/
theorem entity_unique_id_pattern (rapi : RemoteApi) (dapi : DockApi)
    (description : NumberDescription) :
    (ucRemoteNumberInit rapi description).unique_id
        = rapi.model_number ++ '_' :: rapi.serial_number ++ '_' :: description.unique_id
    ∧ (ucDockNumberInit dapi description).unique_id
        = dapi.model_number ++ '_' :: dapi.serial_number ++ '_' :: description.unique_id
    ∧ (updateEntityInit rapi).unique_id = rapi.name ++ ("_update_status").toList :=
  ⟨rfl, rfl, rfl⟩

/-- C5 counterexample: an exception raised by `coordinator.api.init()` (line
72, outside every try block) escapes setup unwrapped — it is neither a
`ConfigEntryAuthFailed` nor a `ConfigEntryNotReady`. -/
theorem setup_uncaught_init_exception :
    asyncSetupEntry exampleInitFailEnv
      = Except.error (SetupFailure.uncaught (PyExc.otherError 7))
    ∧ SetupFailure.uncaught (PyExc.otherError 7) ≠ SetupFailure.configEntryAuthFailed
    ∧ SetupFailure.uncaught (PyExc.otherError 7) ≠ SetupFailure.configEntryNotReady :=
  ⟨rfl, by decide, by decide⟩

/-- C5 (amended): the initial connection block maps `AuthenticationError` to
`ConfigEntryAuthFailed` and every other exception to `ConfigEntryNotReady`;
an exception from the later, unprotected `coordinator.api.init()` escapes
unwrapped; and when every awaited call succeeds (and no dock-coordinator
construction raises), setup returns the fully wired runtime state — migrated
registry entries, reconciled dock records, the constructed coordinator plus
its dock coordinators, the advisory issues — leaving `hass.data` untouched. -/
theorem setup_error_taxonomy (env : SetupEnv) :
    (env.connectOutcome = some PyExc.authenticationError →
        asyncSetupEntry env = Except.error SetupFailure.configEntryAuthFailed)
    ∧ (env.connectOutcome = some PyExc.connectionError →
        asyncSetupEntry env = Except.error SetupFailure.configEntryNotReady)
    ∧ (∀ k, env.connectOutcome = some (PyExc.otherError k) →
        asyncSetupEntry env = Except.error SetupFailure.configEntryNotReady)
    ∧ (∀ e, env.connectOutcome = none → env.initOutcome = some e →
        asyncSetupEntry env = Except.error (SetupFailure.uncaught e))
    ∧ (env.connectOutcome = none → env.initOutcome = none →
        env.firstRefreshFails = false → env.forwardOutcome = none →
        env.initWebsocketOutcome = none →
        (∀ d ∈ env.liveDocks,
            dockEffectivePassword (reconcileDocks env.persistedDocks env.liveDocks) d ≠ [] →
            (env.dockBehavior d.id).constructRaises = none) →
        asyncSetupEntry env = Except.ok
          { version := entryVersionAfterSetup env.version
            registryEntries :=
              if env.version = 1 then
                env.registryEntries.map
                  (applyMigration env.api.model_number env.api.serial_number)
              else env.registryEntries
            dockRecords := reconcileDocks env.persistedDocks env.liveDocks
            runtimeData :=
              { coordinator := env.coordinatorRef
                dockCoordinators :=
                  (env.liveDocks.filter fun d =>
                      decide (dockEffectivePassword
                        (reconcileDocks env.persistedDocks env.liveDocks) d ≠ []) &&
                      decide ((env.dockBehavior d.id).eagerRefreshRaises = none)).map
                    Dock.id }
            issues :=
              if env.externalConfigAvailable && !env.websocketUrlRegistered then
                ((env.liveDocks.filter fun d =>
                    decide (dockEffectivePassword
                      (reconcileDocks env.persistedDocks env.liveDocks) d = [])).map
                  (fun d => dockIssueId d.id)) ++ [("websocket_connection").toList]
              else
                (env.liveDocks.filter fun d =>
                    decide (dockEffectivePassword
                      (reconcileDocks env.persistedDocks env.liveDocks) d = [])).map
                  (fun d => dockIssueId d.id)
            hassData := env.hassData }) := by
  refine ⟨?_, ?_, ?_, ?_, ?_⟩
  · intro h
    simp only [asyncSetupEntry, h]
  · intro h
    simp only [asyncSetupEntry, h]
  · intro k h
    simp only [asyncSetupEntry, h]
  · intro e hc hi
    simp only [asyncSetupEntry, hc, hi]
  · intro hc hi hfr hfw hws hdocks
    have hloop := dockLoopAux_characterization env.dockBehavior
      (reconcileDocks env.persistedDocks env.liveDocks) env.liveDocks [] [] hdocks
    simp only [asyncSetupEntry, hc, hi, hloop, hfr, hfw, hws, List.nil_append,
      Bool.false_eq_true, if_false]

/-- Witness for C5 (amended): the authentication-error mapping at a concrete
environment. -/
theorem setup_error_taxonomy_witness :
    asyncSetupEntry exampleAuthFailEnv
      = Except.error SetupFailure.configEntryAuthFailed :=
  (setup_error_taxonomy exampleAuthFailEnv).1 rfl

/-- C6 counterexample: a dock-coordinator construction exception (line 155,
outside the try block) is not caught — setup aborts with the raw exception
instead of skipping that dock and continuing. -/
theorem dock_construct_exception_escapes :
    asyncSetupEntry exampleDockConstructFailEnv
      = Except.error (SetupFailure.uncaught (PyExc.otherError 3)) := rfl

/-- C6 (amended): provided no dock-coordinator construction raises, the dock
loop completes for every dock list: docks with a non-empty effective password
whose eager refresh raises are logged and skipped (they yield no
coordinator), the remaining passworded docks yield coordinators, and every
empty-password dock yields a `dock_password_{id}` advisory issue and no
coordinator. -/
theorem dock_setup_failure_isolation (behavior : List Char → DockBehavior)
    (records : List DockRecord) (docks : List Dock)
    (h : ∀ d ∈ docks, dockEffectivePassword records d ≠ [] →
        (behavior d.id).constructRaises = none) :
    dockLoopAux behavior records docks [] [] = Except.ok
      ((docks.filter fun d =>
          decide (dockEffectivePassword records d ≠ []) &&
          decide ((behavior d.id).eagerRefreshRaises = none)).map Dock.id,
       (docks.filter fun d => decide (dockEffectivePassword records d = [])).map
         (fun d => dockIssueId d.id)) := by
  have hc := dockLoopAux_characterization behavior records docks [] [] h
  simpa using hc

/-- Witness for C6 (amended): dock 2 has a persisted password but its eager
refresh raises, so it is skipped; dock 3 has no password, so it only raises a
`dock_password_3` advisory. -/
theorem dock_setup_failure_isolation_witness :
    (∀ d ∈ scenarioLiveDocks,
        dockEffectivePassword scenarioPersistedDocks d ≠ [] →
        (scenarioDockBehavior d.id).constructRaises = none)
    ∧ dockLoopAux scenarioDockBehavior scenarioPersistedDocks scenarioLiveDocks [] []
        = Except.ok
          ((scenarioLiveDocks.filter fun d =>
              decide (dockEffectivePassword scenarioPersistedDocks d ≠ []) &&
              decide ((scenarioDockBehavior d.id).eagerRefreshRaises = none)).map Dock.id,
           (scenarioLiveDocks.filter fun d =>
              decide (dockEffectivePassword scenarioPersistedDocks d = [])).map
             (fun d => dockIssueId d.id)) :=
  ⟨by decide, dock_setup_failure_isolation scenarioDockBehavior
    scenarioPersistedDocks scenarioLiveDocks (by decide)⟩

/-- C7: on every coordinator update of the firmware Update entity, an
in-progress update at 0 percent sets the in-progress indicator to the string
"0" (not the boolean false), a nonzero percentage sets it to that percentage,
and no update in progress resets it to the boolean false and copies the
installed and latest versions from the device snapshot. -/
theorem update_progress_indicator (api : RemoteApi) (s : UpdateEntityState) :
    (api.update_in_progress = true → api.update_percent = 0 →
        (updateHandleCoordinatorUpdate api s).in_progress = ProgressVal.str0)
    ∧ (api.update_in_progress = true → api.update_percent ≠ 0 →
        (updateHandleCoordinatorUpdate api s).in_progress
          = ProgressVal.percent api.update_percent)
    ∧ (api.update_in_progress = false →
        (updateHandleCoordinatorUpdate api s).in_progress = ProgressVal.boolFalse
        ∧ (updateHandleCoordinatorUpdate api s).installed_version = api.sw_version
        ∧ (updateHandleCoordinatorUpdate api s).latest_version = api.latest_sw_version) := by
  refine ⟨?_, ?_, ?_⟩
  · intro h hp
    simp [updateHandleCoordinatorUpdate, h, hp]
  · intro h hp
    simp [updateHandleCoordinatorUpdate, h, hp]
  · intro h
    simp [updateHandleCoordinatorUpdate, h]

/-- Witness for C7 at concrete snapshots: installing at 0 percent, installing
at 42 percent, and not installing. -/
theorem update_progress_indicator_witness :
    (updateHandleCoordinatorUpdate
        { exampleRemoteApi with update_in_progress := true, update_percent := 0 }
        (updateEntityInit exampleRemoteApi)).in_progress = ProgressVal.str0
    ∧ (updateHandleCoordinatorUpdate
        { exampleRemoteApi with update_in_progress := true, update_percent := 42 }
        (updateEntityInit exampleRemoteApi)).in_progress = ProgressVal.percent 42
    ∧ (updateHandleCoordinatorUpdate exampleRemoteApi
        (updateEntityInit exampleRemoteApi)).in_progress = ProgressVal.boolFalse :=
  ⟨(update_progress_indicator
      { exampleRemoteApi with update_in_progress := true, update_percent := 0 }
      (updateEntityInit exampleRemoteApi)).1 rfl rfl,
   (update_progress_indicator
      { exampleRemoteApi with update_in_progress := true, update_percent := 42 }
      (updateEntityInit exampleRemoteApi)).2.1 rfl (by decide),
   ((update_progress_indicator exampleRemoteApi
      (updateEntityInit exampleRemoteApi)).2.2 rfl).1⟩

/-- C8: setting a number entity (remote or dock) to a value V performs, in
order and awaited before returning: exactly one call of the entity's declared
control function with V truncated to an integer, then exactly one coordinator
refresh request, which is the last effect. -/
theorem number_setter_effect_trace (description : NumberDescription) (value : Rat) :
    (ucRemoteNumberSetNativeValue description value).filter
        SetValueEffect.isControlCall
        = [SetValueEffect.controlCall description.control_fn (pyInt value)]
    ∧ (ucRemoteNumberSetNativeValue description value).count
        SetValueEffect.requestRefresh = 1
    ∧ (ucRemoteNumberSetNativeValue description value).getLast?
        = some SetValueEffect.requestRefresh
    ∧ (ucDockNumberSetNativeValue description value).filter
        SetValueEffect.isControlCall
        = [SetValueEffect.controlCall description.control_fn (pyInt value)]
    ∧ (ucDockNumberSetNativeValue description value).count
        SetValueEffect.requestRefresh = 1
    ∧ (ucDockNumberSetNativeValue description value).getLast?
        = some SetValueEffect.requestRefresh :=
  ⟨rfl, rfl, rfl, rfl, rfl, rfl⟩

/-- C9 counterexample: an exception raised by the platform teardown
(`async_unload_platforms`, line 234, outside the try block) propagates out of
`async_unload_entry`. -/
theorem unload_platform_exception_escapes :
    asyncUnloadEntry
        { closeWebsocketRaises := none, deleteIssueRaises := none,
          unloadPlatformsRaises := some (PyExc.otherError 9),
          unloadPlatformsResult := true }
      = Except.error (PyExc.otherError 9) := rfl

/-- C9 (amended): exceptions raised while closing the push-event connection
or deleting per-dock advisory issues never propagate (the unload result does
not depend on them), and removal never raises — every exception of its body,
including `ConnectionError` from the token deletion, is logged and swallowed.
Platform-teardown exceptions, however, do escape unload. -/
theorem teardown_error_policy (uenv : UnloadEnv) (renv : RemoveEnv) :
    (uenv.unloadPlatformsRaises = none →
        asyncUnloadEntry uenv = Except.ok uenv.unloadPlatformsResult)
    ∧ asyncRemoveEntry renv = Except.ok () := by
  constructor
  · intro h
    simp only [asyncUnloadEntry, h]
  · unfold asyncRemoveEntry
    cases h : removeBody renv with
    | error e => rfl
    | ok u => rfl

/-- Witness for C9 (amended): both inner calls of unload raise yet unload
returns normally, and removal returns normally despite a `ConnectionError`
during token deletion. -/
theorem teardown_error_policy_witness :
    asyncUnloadEntry
        { closeWebsocketRaises := some (PyExc.otherError 2),
          deleteIssueRaises := some (PyExc.otherError 4),
          unloadPlatformsRaises := none, unloadPlatformsResult := true }
      = Except.ok true
    ∧ asyncRemoveEntry
        { constructRaises := none,
          deleteTokenOutcome := some PyExc.connectionError }
      = Except.ok () :=
  ⟨(teardown_error_policy
      { closeWebsocketRaises := some (PyExc.otherError 2),
        deleteIssueRaises := some (PyExc.otherError 4),
        unloadPlatformsRaises := none, unloadPlatformsResult := true }
      { constructRaises := none,
        deleteTokenOutcome := some PyExc.connectionError }).1 rfl,
   (teardown_error_policy
      { closeWebsocketRaises := some (PyExc.otherError 2),
        deleteIssueRaises := some (PyExc.otherError 4),
        unloadPlatformsRaises := none, unloadPlatformsResult := true }
      { constructRaises := none,
        deleteTokenOutcome := some PyExc.connectionError }).2⟩

/-- C10 (code bug): a successful setup run stores the coordinator only on
`entry.runtime_data` and leaves `hass.data` untouched, so the update
platform's lookup
`hass.data[DOMAIN][entry_id][UNFOLDED_CIRCLE_COORDINATOR]` finds nothing
(a `KeyError` in Python) even though the runtime data holds the coordinator. -/
theorem update_platform_lookup_misses :
    asyncSetupEntry exampleCleanEnv = Except.ok
      { version := 2, registryEntries := [], dockRecords := [],
        runtimeData := { coordinator := 5, dockCoordinators := [] },
        issues := [], hassData := [] }
    ∧ exampleCleanEnv.coordinatorRef = 5
    ∧ updatePlatformLookup ([] : List (List Char × Nat)) (("entry1").toList) = none :=
  ⟨rfl, rfl, rfl⟩
